import Mathlib

/-!
Verification of the `playscenario_prompts` repository: a shallow embedding of
the evaluation runner (`src/evaluations/evaluate.py`) and the per-agent prompt
factories (`src/prompts/agents/*/prompt_factory.py`, `src/prompts/schemas.py`),
together with theorems settling the spec claims about them.

Python strings are embedded as Lean `String`/`List Char`; Python `dict`s as
association lists; fallible Python code as `Except`/`Option`; external
collaborators (the YAML loader, `json.loads`/`json.dumps`, pydantic
validation, the Jinja template files, the network clients, the clock) are
passed in as explicit oracle parameters, exactly at the call boundary where
the repository invokes them.
-/

namespace PlayScenario

/-! ## Python string primitives -/

/-- Python `needle in haystack` on lists of characters: `needle` occurs as a
contiguous infix of `haystack` (the empty needle always occurs). -/
def charsContain (needle : List Char) : List Char → Bool
  | [] => needle.isEmpty
  | c :: rest => needle.isPrefixOf (c :: rest) || charsContain needle rest

/-- Python `needle in haystack` for strings (substring containment). -/
def pyIsSubstr (needle haystack : String) : Bool :=
  charsContain needle.data haystack.data

/-- The whitespace characters removed by Python `str.strip()`. -/
def pySpace (c : Char) : Bool :=
  c = ' ' || c = '\t' || c = '\n' || c = '\x0d' || c = '\x0b' || c = '\x0c'

/-- Python `str.strip()`: drop leading and trailing whitespace. -/
def pyStrip (s : String) : String :=
  ⟨((s.data.dropWhile pySpace).reverse.dropWhile pySpace).reverse⟩

/-- Python `str.replace(pat, rep)` on lists of characters, with explicit fuel
(one unit per input character suffices, since every step consumes at least one
character when `pat` is nonempty). Matches are found left to right and are
non-overlapping, as in CPython. -/
def replaceAux (pat rep : List Char) : Nat → List Char → List Char
  | 0, s => s
  | _ + 1, [] => []
  | fuel + 1, c :: rest =>
    if pat ≠ [] ∧ pat.isPrefixOf (c :: rest) then
      rep ++ replaceAux pat rep fuel ((c :: rest).drop pat.length)
    else
      c :: replaceAux pat rep fuel rest

/-- Python `s.replace(pat, rep)` for nonempty `pat` (the only way the
repository calls it). -/
def pyReplace (s pat rep : String) : String :=
  ⟨replaceAux pat.data rep.data s.data.length s.data⟩

/-- Python `str.capitalize()`: first character uppercased, the rest
lowercased. -/
def pyCapitalize (s : String) : String :=
  match s.data with
  | [] => ""
  | c :: rest => ⟨c.toUpper :: rest.map Char.toLower⟩

/-- Python `str.split(sep)` for a single-character separator. -/
def pySplitOn (s : String) (sep : Char) : List String :=
  (splitAux s.data).map fun l => ⟨l⟩
where
  splitAux : List Char → List (List Char)
    | [] => [[]]
    | c :: rest =>
      if c = sep then [] :: splitAux rest
      else
        match splitAux rest with
        | [] => [[c]]
        | l :: ls => (c :: l) :: ls

/-- Embedded `os.path.basename` for POSIX paths: the part after the last `/`. -/
def pyBasename (p : String) : String :=
  match (pySplitOn p '/').getLast? with
  | some last => last
  | none => p

/-- The stem of `os.path.splitext`: split off the extension at the last dot,
unless every character before that dot is itself a dot (CPython's
`genericpath._splitext` applied to a bare file name). -/
def pySplitextStem (name : String) : String :=
  match lastDotIdx name.data 0 none with
  | none => name
  | some i =>
    if (name.data.take i).any (fun c => c ≠ '.') then ⟨name.data.take i⟩
    else name
where
  lastDotIdx : List Char → Nat → Option Nat → Option Nat
    | [], _, acc => acc
    | c :: rest, i, acc =>
      lastDotIdx rest (i + 1) (if c = '.' then some i else acc)

/-! ## `strip_markdown` (`evaluate.py` lines 98-100)

`re.sub(r"```json\n(.*?)\n```", r"\1", text, flags=re.DOTALL)`: scan left to
right; at the leftmost position where the literal ```` ```json\n ```` matches,
take the shortest body (non-greedy `.*?` under DOTALL) terminated by the
literal `\n` followed by three backticks, keep the body, and resume scanning
after the closing fence; the replacement text itself is not rescanned. -/

/-- The opening fence literal ```` ```json\n ````. -/
def fenceOpen : List Char := "```json\n".data

/-- The closing fence literal: a newline followed by three backticks. -/
def fenceClose : List Char := "\n```".data

/-- Split `s` at the earliest occurrence of the closing fence: returns the
characters before it and the characters after it. `none` when there is no
closing fence, i.e. the non-greedy group cannot be closed. -/
def findClose : List Char → Option (List Char × List Char)
  | [] => none
  | c :: rest =>
    if fenceClose.isPrefixOf (c :: rest) then
      some ([], (c :: rest).drop 4)
    else
      match findClose rest with
      | some (content, after) => some (c :: content, after)
      | none => none

/-- The scanning loop of the substitution, with explicit fuel (the input
length suffices: every step consumes at least one input character). -/
def stripMarkdownAux : Nat → List Char → List Char
  | 0, s => s
  | _ + 1, [] => []
  | fuel + 1, c :: rest =>
    if fenceOpen.isPrefixOf (c :: rest) then
      match findClose ((c :: rest).drop 8) with
      | some (content, after) => content ++ stripMarkdownAux fuel after
      | none => c :: stripMarkdownAux fuel rest
    else
      c :: stripMarkdownAux fuel rest

/-- Embedded `strip_markdown` from `evaluate.py`. -/
def strip_markdown (text : String) : String :=
  ⟨stripMarkdownAux text.data.length text.data⟩

/-- Whether the regex has any match in `s`: some position opens a fence that
is later closed. A string with no such match is left unchanged by `re.sub`. -/
def hasFence : List Char → Bool
  | [] => false
  | c :: rest =>
    (fenceOpen.isPrefixOf (c :: rest) && (findClose ((c :: rest).drop 8)).isSome)
      || hasFence rest

/-! ## Python JSON values -/

/-- A parsed Python JSON value (the result of `json.loads`). -/
inductive PyJson where
  | str (s : String)
  | int (n : Int)
  | bool (b : Bool)
  | null
  | arr (xs : List PyJson)
  | obj (fields : List (String × PyJson))

/-- Python `dict.get(k)` on an object's field list: the first binding of `k`,
if any. -/
def dictGet (fields : List (String × PyJson)) (k : String) : Option PyJson :=
  match fields with
  | [] => none
  | (k', v) :: rest => if k' = k then some v else dictGet rest k

/-- Python exceptions that the evaluation runner can raise or catch. -/
inductive PyExc where
  | valueError
  | notImplementedError
  | typeError
  | attributeError
  | jsonDecodeError
  | fileNotFoundError
  | validationError
  | keyError
  | importError
  | apiError
deriving DecidableEq

/-- Python `val in field_value` where `val` is a string and `field_value` an
arbitrary JSON value: substring test on strings, element equality on lists,
key membership on dicts, and a `TypeError` on every other value. -/
def pyIn (val : String) : PyJson → Except PyExc Bool
  | .str h => .ok (pyIsSubstr val h)
  | .arr xs =>
    .ok (xs.any fun x =>
      match x with
      | .str s => s = val
      | _ => false)
  | .obj fields => .ok (fields.any fun kv => kv.1 = val)
  | _ => .error .typeError

/-- Python `all(val in fv for val in vals)`: lazy left-to-right evaluation,
stopping at the first `False` and propagating the first exception. -/
def pyAllIn (vals : List String) (fv : PyJson) : Except PyExc Bool :=
  match vals with
  | [] => .ok true
  | v :: rest =>
    match pyIn v fv with
    | .error e => .error e
    | .ok false => .ok false
    | .ok true => pyAllIn rest fv

/-- Python `any(val in fv for val in vals)`: lazy left-to-right evaluation,
stopping at the first `True` and propagating the first exception. -/
def pyAnyIn (vals : List String) (fv : PyJson) : Except PyExc Bool :=
  match vals with
  | [] => .ok false
  | v :: rest =>
    match pyIn v fv with
    | .error e => .error e
    | .ok true => .ok true
    | .ok false => pyAnyIn rest fv

/-! ## The LLM client factory (`evaluate.py` lines 33-96)

The provider SDK calls themselves (`genai`, `OpenAI`) are external
collaborators; what the repository contributes is which client object is
constructed from which configuration, and which exceptions are raised. -/

/-- One entry of the `models:` map in `config/models.yaml`, as read by
`get_client` via `model_info.get(...)`: every key may be absent. -/
structure ModelInfo where
  provider : Option String
  api_key_env : Option String
  model_name : Option String
  generation_config : Option PyJson
  base_url : Option String

/-- The client object returned by `LlmClientFactory.get_client`: either a
`GoogleClient` or an `OpenAICompatibleClient` (the latter carrying the
optional `base_url`). The constructor arguments mirror `__init__`. -/
inductive LlmClient where
  | google (api_key : String) (model_name : Option String)
      (generation_config : PyJson)
  | openaiCompatible (api_key : String) (model_name : Option String)
      (generation_config : PyJson) (base_url : Option String)

/-- The models dictionary held by `LlmClientFactory`. A value of `none` for a
present key models a YAML entry that is null or empty, which
`if not model_info` treats exactly like an absent key. -/
def ModelsConfig := List (String × Option ModelInfo)

/-- Python `dict.get(k)` on the models dictionary, flattening a present but
falsy entry to `none` (the truthiness test `if not model_info`). -/
def modelsLookup (cfg : ModelsConfig) (k : String) : Option ModelInfo :=
  match cfg with
  | [] => none
  | (k', v) :: rest => if k' = k then v else modelsLookup rest k

/-- Embedded `LlmClientFactory.get_client` (`evaluate.py` lines 75-96). `env` is the
process environment (`os.getenv`). `os.getenv(None)` raises a `TypeError`
when the entry has no `api_key_env` key, and `if not api_key` treats an
empty-string environment value like an unset one. -/
def get_client (models_config : ModelsConfig) (env : String → Option String)
    (model_key : String) : Except PyExc LlmClient :=
  match modelsLookup models_config model_key with
  | none => .error .valueError
  | some mi =>
    match mi.api_key_env with
    | none => .error .typeError
    | some keyEnv =>
      match env keyEnv with
      | none => .error .valueError
      | some api_key =>
        if api_key = "" then .error .valueError
        else
          let generation_config := mi.generation_config.getD (.obj [])
          if mi.provider = some "google" then
            .ok (.google api_key mi.model_name generation_config)
          else if mi.provider = some "openai" ∨ mi.provider = some "mistral"
              ∨ mi.provider = some "cerebras" then
            .ok (.openaiCompatible api_key mi.model_name generation_config
              mi.base_url)
          else .error .notImplementedError

/-! ## The `prompts.schemas` module (`src/prompts/schemas.py`)

The module-level names of `prompts/schemas.py`: the classes it defines plus
the names its own import statements bring into the module namespace. The
`is_valid_pydantic_schema` assertion and the factory modules' imports resolve
names against this dictionary. -/

/-- Every name defined at the top level of `prompts/schemas.py`. -/
def schemasClassNames : List String :=
  ["CharacterSchema", "CharacterInternalThoughtProcess",
   "ChainOfThoughtCharacterSchema", "ObjectiveSchema",
   "ScenarioCharacterSchema", "ScenarioSchema",
   "ScenarioInternalThoughtProcess", "ChainOfThoughtScenarioSchema",
   "CritiqueScoreSchema", "CharacterCreationRequest",
   "ScenarioCreationRequest", "ScenarioEditRequest", "CharacterEditRequest",
   "UserProfileSchema", "TranscriptItemSchema", "PerformanceMetricsSchema",
   "ScenarioFeedbackRequest", "AchievementSchema", "SuggestionSchema",
   "RelationshipSchema", "ScenarioFeedbackSchema", "IntentRouterSchema",
   "CharacterCritiqueScoreSchema", "ScenarioCritiqueScoreSchema",
   "InternalState", "Metrics", "Flags", "CharacterInSimulationOutput",
   "ScenarioObjective", "ObjectiveProgress", "ConversationMessage",
   "CharacterExample", "CharacterInSimulationInput"]

/-- Names visible in the module namespace of `prompts.schemas`: its own
classes together with the names it imports (`annotations`, `typing` names,
`pydantic` names). -/
def schemasModuleNames : List String :=
  schemasClassNames ++
    ["annotations", "List", "Optional", "Literal", "BaseModel", "Field"]

/-- Embedded `CritiqueScoreSchema` (`schemas.py` lines 93-101): three required integer
metric fields. -/
structure CritiqueScoreSchema where
  creativity : Int
  depth : Int
  originality : Int

/-- Embedded `getattr(critique_scores, metric, None)` restricted to the data fields of
`CritiqueScoreSchema`. (Pydantic's `BaseModel` also exposes methods and class
attributes under other names; a threshold metric naming one of those would
make the later `>=` comparison raise a `TypeError`, which the surrounding
`except` turns into the same failed verdict, so only the three score fields
are modelled as retrievable.) -/
def CritiqueScoreSchema.attr (s : CritiqueScoreSchema) (metric : String) :
    Option Int :=
  if metric = "creativity" then some s.creativity
  else if metric = "depth" then some s.depth
  else if metric = "originality" then some s.originality
  else none

/-- Embedded `CritiqueScoreSchema.model_validate_json`: parse the text as JSON (the
parse oracle `loads` stands for the JSON parser) and require the three
integer fields; extra fields are ignored, as pydantic does by default. -/
def critiqueValidate (loads : String → Option PyJson) (text : String) :
    Option CritiqueScoreSchema :=
  match loads text with
  | some (.obj fields) =>
    match dictGet fields "creativity", dictGet fields "depth",
        dictGet fields "originality" with
    | some (.int c), some (.int d), some (.int o) =>
      some { creativity := c, depth := d, originality := o }
    | _, _, _ => none
  | _ => none

/-! ## Assertions (`evaluate.py` lines 209-346) -/

/-- One entry of a test case's `assertions:` list, with the keys the four
assertion kinds read via `assertion.get(...)`. -/
structure Assertion where
  type : String
  field : String
  expected : List String
  schema : String
  prompt_path : String
  thresholds : List (String × Int)
  critique_model : Option String

/-- The oracles the assertion loop consults: the main model's raw response
and the external collaborators (JSON parser and serializer, pydantic
validation, the filesystem, the critique client's network call, the models
configuration and process environment for `get_client`, and the rendering
of exception values interpolated into `f"... {e}"` messages). -/
structure EvalCtx where
  responseText : String
  models : ModelsConfig
  env : String → Option String
  jsonLoads : String → Option PyJson
  pydanticValidate : String → String → Bool
  readFile : String → Option String
  generate : LlmClient → String → Option String
  jsonDumps2 : PyJson → String
  excMsg : PyExc → String

/-- The `is_valid_pydantic_schema` branch (lines 222-234): look the schema
name up in `prompts.schemas` (a missing name raises a `KeyError`), validate
the markdown-stripped response against it, and catch every exception as a
failure. The surrounding `try` catches everything, so this branch always
returns normally. -/
def schemaAssertion (ctx : EvalCtx) (a : Assertion) : List String × Bool :=
  if schemasModuleNames.contains a.schema then
    if ctx.pydanticValidate a.schema (strip_markdown ctx.responseText) then
      (["[PASS] Response validates against " ++ a.schema], true)
    else
      (["[FAIL] Pydantic validation failed: " ++ ctx.excMsg .validationError],
        false)
  else
    (["[FAIL] Pydantic validation failed: " ++ ctx.excMsg .keyError], false)

/-- The `field_contains` branch (lines 236-256): parse the markdown-stripped
response as JSON (a parse failure is caught and recorded as `[FAIL]`), read
the field with `.get(field, "")`, and pass iff every expected string occurs
in it. Only `json.JSONDecodeError` is caught: a response that parses to a
non-dict makes `.get` raise an uncaught `AttributeError`, and a non-string
field value makes `in` raise an uncaught `TypeError`. -/
def fieldContainsAssertion (ctx : EvalCtx) (a : Assertion) :
    Except PyExc (List String × Bool) :=
  match ctx.jsonLoads (strip_markdown ctx.responseText) with
  | none => .ok (["[FAIL] Could not parse LLM response as JSON."], false)
  | some (.obj fields) =>
    let field_value := (dictGet fields a.field).getD (.str "")
    match pyAllIn a.expected field_value with
    | .error e => .error e
    | .ok true =>
      .ok (["[PASS] Field '" ++ a.field ++ "' contains expected values."],
        true)
    | .ok false =>
      .ok (["[FAIL] Field '" ++ a.field
          ++ "' did not contain all expected values."], false)
  | some _ => .error .attributeError

/-- The `field_not_contains` branch (lines 258-278): as `field_contains`,
but passing iff none of the listed strings occurs in the field value. -/
def fieldNotContainsAssertion (ctx : EvalCtx) (a : Assertion) :
    Except PyExc (List String × Bool) :=
  match ctx.jsonLoads (strip_markdown ctx.responseText) with
  | none => .ok (["[FAIL] Could not parse LLM response as JSON."], false)
  | some (.obj fields) =>
    let field_value := (dictGet fields a.field).getD (.str "")
    match pyAnyIn a.expected field_value with
    | .error e => .error e
    | .ok false =>
      .ok (["[PASS] Field '" ++ a.field
          ++ "' does not contain unexpected values."], true)
    | .ok true =>
      .ok (["[FAIL] Field '" ++ a.field ++ "' contained unexpected values."],
        false)
  | some _ => .error .attributeError

/-- The placeholder replaced in the critique prompt template
(`"\x7b\x7b character_data \x7d\x7d"` in the source, written here with
escaped braces). -/
def characterDataPlaceholder : String := "\x7b\x7b character_data \x7d\x7d"

/-- The threshold loop of the `ai_critique` branch (lines 315-332): for each
`(metric, threshold)` pair in order, record a `[PASS]`/`[FAIL]` line, and
remember whether every metric was found and met its threshold. -/
def thresholdCheck (scores : CritiqueScoreSchema) :
    List (String × Int) → List String × Bool
  | [] => ([], true)
  | (metric, threshold) :: rest =>
    let r := thresholdCheck scores rest
    match scores.attr metric with
    | none =>
      (("[FAIL] Metric '" ++ metric ++ "' not found in critique response.")
          :: r.1, false)
    | some score =>
      if score ≥ threshold then
        (("[PASS] Metric '" ++ metric ++ "': " ++ toString score ++ " >= "
            ++ toString threshold) :: r.1, r.2)
      else
        (("[FAIL] Metric '" ++ metric ++ "': " ++ toString score ++ " < "
            ++ toString threshold) :: r.1, false)

/-- The `ai_critique` branch (lines 280-346), in the source's order: read the
critique prompt file (a missing file is caught as `FileNotFoundError`),
resolve the critique client for the `critique_model` key (default
`"gemini_flash_strict"`), parse the markdown-stripped main response as JSON,
serialize its `final_character` member (default `\x7b\x7d`) with
`json.dumps(..., indent=2)`, substitute it for the placeholder in the
template, call the critique client on the substituted prompt, validate the
markdown-stripped reply against `CritiqueScoreSchema`, and check every
threshold. Both `except` arms catch the exception and record a `[FAIL]`
line, so this branch always returns normally. -/
def aiCritique (ctx : EvalCtx) (a : Assertion) : List String × Bool :=
  let critique_model_key := a.critique_model.getD "gemini_flash_strict"
  match ctx.readFile a.prompt_path with
  | none =>
    (["[FAIL] Critique prompt file not found at '" ++ a.prompt_path ++ "'."],
      false)
  | some critique_prompt_template =>
    match get_client ctx.models ctx.env critique_model_key with
    | .error e => (["[FAIL] AI critique failed with an error: "
        ++ ctx.excMsg e], false)
    | .ok critique_client =>
      match ctx.jsonLoads (strip_markdown ctx.responseText) with
      | none => (["[FAIL] AI critique failed with an error: "
          ++ ctx.excMsg .jsonDecodeError], false)
      | some (.obj fields) =>
        let character_data_json :=
          ctx.jsonDumps2 ((dictGet fields "final_character").getD (.obj []))
        let user_prompt_for_critique :=
          pyReplace critique_prompt_template characterDataPlaceholder
            character_data_json
        match ctx.generate critique_client user_prompt_for_critique with
        | none => (["[FAIL] AI critique failed with an error: "
            ++ ctx.excMsg .apiError], false)
        | some critique_response_text =>
          match critiqueValidate ctx.jsonLoads
              (strip_markdown critique_response_text) with
          | none => (["[FAIL] AI critique failed with an error: "
              ++ ctx.excMsg .validationError], false)
          | some critique_scores =>
            thresholdCheck critique_scores a.thresholds
      | some _ =>
        -- `.get("final_character", ...)` on a non-dict raises an
        -- `AttributeError`, caught by the generic `except` arm.
        (["[FAIL] AI critique failed with an error: "
            ++ ctx.excMsg .attributeError], false)

/-- The four recognized assertion kinds, in the order of the `if`/`elif`
chain. -/
def assertionKinds : List String :=
  ["is_valid_pydantic_schema", "field_contains", "field_not_contains",
   "ai_critique"]

/-- The dispatch over `assertion.get("type")` (lines 217-346): exactly four
recognized kinds; any other type falls through the `if`/`elif` chain and
contributes nothing. -/
def evalAssertion (ctx : EvalCtx) (a : Assertion) :
    Except PyExc (List String × Bool) :=
  if a.type = "is_valid_pydantic_schema" then .ok (schemaAssertion ctx a)
  else if a.type = "field_contains" then fieldContainsAssertion ctx a
  else if a.type = "field_not_contains" then fieldNotContainsAssertion ctx a
  else if a.type = "ai_critique" then .ok (aiCritique ctx a)
  else .ok ([], true)

/-- The assertion loop (`for assertion in assertions:`): sequential, in list
order, appending each assertion's result lines to the shared
`assertion_results` list and and-ing its verdict into
`all_assertions_passed`. An uncaught exception aborts the loop. -/
def runAssertions (ctx : EvalCtx) :
    List Assertion → List String × Bool → Except PyExc (List String × Bool)
  | [], acc => .ok acc
  | a :: rest, (lines, allPassed) =>
    match evalAssertion ctx a with
    | .error e => .error e
    | .ok (newLines, passed) =>
      runAssertions ctx rest (lines ++ newLines, allPassed && passed)

/-- The evaluation summary line (lines 348-352). -/
def summaryLine (all_assertions_passed : Bool) : String :=
  if all_assertions_passed then "All assertions passed!"
  else "Some assertions failed."

/-- Embedded `generate_report` (lines 103-123), with the clock passed in as the
already-formatted `timestamp` string. -/
def generate_report (test_case_name model_id llm_output : String)
    (assertion_results : List String) (timestamp : String) : String :=
  "# Evaluation Report for " ++ test_case_name ++ "\n\n"
    ++ "**Timestamp**: " ++ timestamp ++ "\n"
    ++ "**Model ID**: " ++ model_id ++ "\n\n"
    ++ "## LLM Output\n"
    ++ "```json\n"
    ++ llm_output
    ++ "\n```\n\n"
    ++ "## Assertions\n"
    ++ String.join (assertion_results.map fun result => "- " ++ result ++ "\n")

/-! ## Factory resolution (`evaluate.py` lines 163-191)

`run_evaluation` dynamically imports `prompts.agents.<agent>.prompt_factory`,
fetches the class named by CamelCasing the agent name plus `PromptFactory`,
and reads the `request` annotation of `build_prompt_create` or
`build_prompt_edit`. The registry below transcribes, from the five
`prompt_factory.py` sources, each module's class name, the names it imports
from `prompts.schemas` (an import of a name absent from that module fails
with an `ImportError`), and its `build_prompt*` methods with the annotated
request class of each. -/

/-- Assoc-list lookup (Python module/dict attribute access). -/
def assocGet {α : Type} : List (String × α) → String → Option α
  | [], _ => none
  | (k', v) :: rest, k => if k' = k then some v else assocGet rest k

/-- What factory resolution needs to know about one
`prompts/agents/<name>/prompt_factory.py` module. -/
structure AgentModule where
  className : String
  schemaImports : List String
  methods : List (String × String)

/-- The five agent modules, transcribed from `src/prompts/agents/`. -/
def agentModules : List (String × AgentModule) :=
  [("character_helper",
    { className := "CharacterHelperPromptFactory",
      schemaImports := ["CharacterSchema", "CharacterCreationRequest",
        "ChainOfThoughtCharacterSchema", "CharacterEditRequest"],
      methods := [("build_prompt_create", "CharacterCreationRequest"),
        ("build_prompt_edit", "CharacterEditRequest")] }),
   ("character_in_simulation",
    { className := "CharacterInSimulationPromptFactory",
      schemaImports := ["CharacterInSimulationInput",
        "CharacterInSimulationOutput"],
      methods := [("build_prompt", "CharacterInSimulationInput")] }),
   ("moderator",
    { className := "ModeratorPromptFactory",
      schemaImports := ["ScenarioModeratorInput", "ScenarioModeratorOutput"],
      methods := [("build_prompt", "ScenarioModeratorInput")] }),
   ("scenario_feedback",
    { className := "ScenarioFeedbackPromptFactory",
      schemaImports := ["ScenarioFeedbackRequest", "ScenarioFeedbackSchema"],
      methods := [("build_prompt", "ScenarioFeedbackRequest")] }),
   ("scenario_helper",
    { className := "ScenarioHelperPromptFactory",
      schemaImports := ["ScenarioSchema", "ScenarioCreationRequest",
        "ChainOfThoughtScenarioSchema", "ScenarioEditRequest"],
      methods := [("build_prompt_create", "ScenarioCreationRequest"),
        ("build_prompt_edit", "ScenarioEditRequest")] })]

/-- The class name `run_evaluation` looks up:
`''.join(word.capitalize() for word in agent_name.split('_'))` plus
`"PromptFactory"`. -/
def camelFactoryName (agent_name : String) : String :=
  String.join ((pySplitOn agent_name '_').map pyCapitalize) ++ "PromptFactory"

/-- The factory/annotation resolution of `run_evaluation` lines 163-182:
load the module (a module whose own `from prompts.schemas import ...` line
names something `prompts.schemas` does not define raises an `ImportError`),
fetch the CamelCased class (`AttributeError` when absent), then read the
`request` annotation of the requested method — only `build_prompt_create`
and `build_prompt_edit` are supported, any other method name raises a
`ValueError` (which, unlike the import errors, the surrounding `except`
clause does not catch). On success, returns the name of the annotated
request schema class. -/
def resolveFactory (agent_name factory_method : String) :
    Except PyExc String :=
  match assocGet agentModules agent_name with
  | none => .error .importError
  | some m =>
    if ¬ (m.schemaImports.all fun n => schemasModuleNames.contains n) then
      .error .importError
    else if ¬ (m.className = camelFactoryName agent_name) then
      .error .attributeError
    else if factory_method = "build_prompt_create"
        ∨ factory_method = "build_prompt_edit" then
      match assocGet m.methods factory_method with
      | some annotated => .ok annotated
      | none => .error .attributeError
    else .error .valueError

/-! ## `run_evaluation` (`evaluate.py` lines 126-370) -/

/-- A test case YAML file, with the keys `run_evaluation` reads. The
`inputs` mapping is consumed only by the pydantic request constructor,
which is an oracle (`RunCtx.inputsValid`). -/
structure TestCase where
  agent : String
  factory_method : String
  model : String
  assertions : List Assertion

/-- The external world of one `run_evaluation` call: the three YAML files
(`none` = `FileNotFoundError`), the environment, the pydantic request
construction (`SchemaClass(**inputs)`), the prompts the factory produced,
the main provider call, the assertion-stage oracles, and the two formatted
clock readings. -/
structure RunCtx where
  modelsYaml : Option ModelsConfig
  agentsYaml : Option Unit
  testCaseYaml : Option TestCase
  env : String → Option String
  inputsValid : Bool
  builtPrompts : String × String
  mainGenerate : LlmClient → String → String → Option String
  jsonLoads : String → Option PyJson
  pydanticValidate : String → String → Bool
  readFile : String → Option String
  critiqueGenerate : LlmClient → String → Option String
  jsonDumps2 : PyJson → String
  excMsg : PyExc → String
  reportTimestamp : String
  headerTimestamp : String

/-- The stages `run_evaluation` completes, in order; `wroteReport` records
the report file name and content. -/
inductive RunEvent where
  | loadedConfigs
  | resolvedModel
  | builtPrompt
  | calledProvider
  | ranAssertions
  | wroteReport (filename content : String)
deriving DecidableEq

/-- The observable outcome of `run_evaluation`: the stages that ran, and
`some code` when the process terminated early (`typer.Exit(1)` and an
uncaught exception both end the process with status 1). -/
structure RunResult where
  trace : List RunEvent
  exitCode : Option Nat
deriving DecidableEq

/-- The assertion-stage view of the run context, once the main response is
available. -/
def evalCtxOf (ctx : RunCtx) (models : ModelsConfig) (responseText : String) :
    EvalCtx :=
  { responseText := responseText, models := models, env := ctx.env,
    jsonLoads := ctx.jsonLoads, pydanticValidate := ctx.pydanticValidate,
    readFile := ctx.readFile, generate := ctx.critiqueGenerate,
    jsonDumps2 := ctx.jsonDumps2, excMsg := ctx.excMsg }

/-- Embedded `run_evaluation` (lines 126-370): load the three YAML files, look the
model key up, resolve the factory and build the request and prompts, get
the client and call the provider once, run the assertions, and, only when
the `report` flag is set, write the markdown report. Every failure before
the assertion loop terminates the run with status 1 before any later stage;
an uncaught exception inside the assertion loop terminates the run without
writing a report. -/
def run_evaluation (ctx : RunCtx) (test_case_path : String) (report : Bool) :
    RunResult :=
  match ctx.modelsYaml, ctx.agentsYaml, ctx.testCaseYaml with
  | some models_config, some _, some test_case =>
    (match modelsLookup models_config test_case.model with
     | none => { trace := [.loadedConfigs], exitCode := some 1 }
     | some _ =>
       match resolveFactory test_case.agent test_case.factory_method with
       | .error _ =>
         { trace := [.loadedConfigs, .resolvedModel], exitCode := some 1 }
       | .ok _ =>
         if ctx.inputsValid = false then
           { trace := [.loadedConfigs, .resolvedModel], exitCode := some 1 }
         else
           match get_client models_config ctx.env test_case.model with
           | .error _ =>
             { trace := [.loadedConfigs, .resolvedModel, .builtPrompt],
               exitCode := some 1 }
           | .ok llm_client =>
             match ctx.mainGenerate llm_client ctx.builtPrompts.1
                 ctx.builtPrompts.2 with
             | none =>
               { trace := [.loadedConfigs, .resolvedModel, .builtPrompt],
                 exitCode := some 1 }
             | some response_text =>
               match runAssertions (evalCtxOf ctx models_config response_text)
                   test_case.assertions ([], true) with
               | .error _ =>
                 { trace := [.loadedConfigs, .resolvedModel, .builtPrompt,
                     .calledProvider], exitCode := some 1 }
               | .ok (assertion_results, _) =>
                 if report then
                   let test_case_name :=
                     pySplitextStem (pyBasename test_case_path)
                   let report_filename := "reports/" ++ test_case_name ++ "_"
                       ++ ctx.reportTimestamp ++ ".md"
                   let report_content := generate_report test_case_name
                       test_case.model response_text assertion_results
                       ctx.headerTimestamp
                   { trace := [.loadedConfigs, .resolvedModel, .builtPrompt,
                       .calledProvider, .ranAssertions,
                       .wroteReport report_filename report_content],
                     exitCode := none }
                 else
                   { trace := [.loadedConfigs, .resolvedModel, .builtPrompt,
                       .calledProvider, .ranAssertions], exitCode := none })
  | _, _, _ => { trace := [], exitCode := some 1 }

/-! ## Request and output schemas (`src/prompts/schemas.py`)

Pydantic models become plain structures; `Literal[...]` string fields become
`String` (the literal constraint is enforced by the validation library, an
external collaborator); `Optional[...]` becomes `Option`. -/

/-- Embedded `CharacterSchema`. -/
structure CharacterSchema where
  name : String
  role : String
  appearance : String
  personality : String
  expertise_keywords : List String
  background : String
  goals : String
  fears : String
  notable_quotes : String

/-- Embedded `CharacterCreationRequest`. -/
structure CharacterCreationRequest where
  user_request : String

/-- Embedded `CharacterEditRequest`. -/
structure CharacterEditRequest where
  edit_request : String
  current_character : CharacterSchema

/-- Embedded `ObjectiveSchema`. -/
structure ObjectiveSchema where
  id : Int
  description : String
  priority : String

/-- Embedded `ScenarioCharacterSchema`. -/
structure ScenarioCharacterSchema where
  name : String
  role : String
  personality : String
  expertise_keywords : List String
  background : String
  appearance : String
  goals : String
  fears : String
  notable_quotes : String
  is_player_character : Bool

/-- Embedded `ScenarioSchema`. -/
structure ScenarioSchema where
  title : String
  description : String
  category : String
  difficulty : String
  estimated_duration : Int
  objectives : List ObjectiveSchema
  win_conditions : String
  lose_conditions : String
  max_turns : Int
  initial_scene_prompt : String
  characters : List ScenarioCharacterSchema
  tags : List String
  is_public : Bool

/-- Embedded `ScenarioCreationRequest`. -/
structure ScenarioCreationRequest where
  user_request : String

/-- Embedded `ScenarioEditRequest`. -/
structure ScenarioEditRequest where
  edit_request : String
  current_scenario : ScenarioSchema

/-- Embedded `UserProfileSchema`. -/
structure UserProfileSchema where
  name : String
  age : Int

/-- Embedded `TranscriptItemSchema`. -/
structure TranscriptItemSchema where
  character : String
  line : String

/-- Embedded `PerformanceMetricsSchema`. -/
structure PerformanceMetricsSchema where
  relationship_change : Int

/-- Embedded `ScenarioFeedbackRequest`. -/
structure ScenarioFeedbackRequest where
  scenario_title : String
  scenario_id : String
  instance_id : String
  user_id : String
  prompt_version : String
  user_profile : UserProfileSchema
  transcript : List TranscriptItemSchema
  performance_metrics : PerformanceMetricsSchema
  detail_level : String

/-- Embedded `ScenarioObjective`. -/
structure ScenarioObjective where
  description : String
  importance : String

/-- Embedded `ObjectiveProgress`. -/
structure ObjectiveProgress where
  completion_percentage : Int
  status : String
  progress_notes : String

/-- Embedded `ConversationMessage`. -/
structure ConversationMessage where
  speaker : String
  content : String

/-- Embedded `CharacterExample`. -/
structure CharacterExample where
  situation : String
  style : String
  sample : String

/-- Embedded `CharacterInSimulationInput`. -/
structure CharacterInSimulationInput where
  character_name : String
  simulation_name : String
  character_role : String
  character_expertise : String
  character_personality : String
  character_behaviors : List String
  selected_strategy : String
  emergency_keywords : List String
  scenario_description : String
  current_scene : String
  scenario_objectives : Option (List ScenarioObjective)
  objectives_progress : Option (List (String × ObjectiveProgress))
  conversation_history : List ConversationMessage
  command_type : String
  user_input : String
  character_examples : Option (List CharacterExample)

/-- Modelled from the spec: `ScenarioModeratorInput` is imported by
`prompts/agents/moderator/prompt_factory.py` but is not defined in
`src/prompts/schemas.py` (so that import fails at runtime); the spec only
describes such inputs as "typed request objects" rendered into templates,
so the class is modelled as an opaque record of template variables. -/
structure ScenarioModeratorInput where
  payload : List (String × PyJson)

/-! ## Prompt factories (`src/prompts/agents/*/prompt_factory.py`)

Each factory's `__init__` loads Jinja templates and caches
`<OutputModel>.model_json_schema()` in `self._cached_schema`; each render
serializes that cached schema with `json.dumps(..., indent=2)` and passes it
to the template. `model_json_schema` (pydantic) is an oracle from output
model to JSON value; the template files are not under `src/` and are
modelled from the spec. -/

/-- The output models whose `model_json_schema()` the factories cache. -/
inductive SchemaModel where
  | chainOfThoughtCharacterSchema
  | chainOfThoughtScenarioSchema
  | characterInSimulationOutput
  | scenarioFeedbackSchema
  | scenarioModeratorOutput

/-- Modelled from the spec: the Jinja template files under
`prompts/agents/**` are absent from `src/`; the spec says the system
templates "inject JSON output schemas" into the rendered prompt, so a
system template whose only variable is `output_schema` is modelled as fixed
text surrounding that variable. -/
structure SysTemplate where
  pre : String
  post : String

/-- Substitute the `output_schema` variable into the template text. -/
def SysTemplate.subst (t : SysTemplate) (output_schema : String) : String :=
  t.pre ++ output_schema ++ t.post

/-- Modelled from the spec: the scenario-feedback system template renders
both the request's fields and the `schema_json` variable, so it is modelled
as request-dependent text surrounding the injected schema. -/
structure FeedbackTemplate where
  pre : ScenarioFeedbackRequest → String
  post : ScenarioFeedbackRequest → String

/-- Substitute the request and the `schema_json` variable. -/
def FeedbackTemplate.subst (t : FeedbackTemplate)
    (request : ScenarioFeedbackRequest) (schema_json : String) : String :=
  t.pre request ++ schema_json ++ t.post request

/-- Embedded `CharacterHelperPromptFactory`: create/edit system and user templates
plus the cached chain-of-thought character schema. -/
structure CharacterHelperPromptFactory where
  systemCreateTemplate : SysTemplate
  userCreateTemplate : CharacterCreationRequest → String
  systemEditTemplate : SysTemplate
  userEditTemplate : CharacterEditRequest → String
  cachedSchema : PyJson

namespace CharacterHelperPromptFactory

/-- Embedded `__init__`: load the four templates and cache
`ChainOfThoughtCharacterSchema.model_json_schema()` once. -/
def init (sysC : SysTemplate) (usrC : CharacterCreationRequest → String)
    (sysE : SysTemplate) (usrE : CharacterEditRequest → String)
    (model_json_schema : SchemaModel → PyJson) :
    CharacterHelperPromptFactory :=
  { systemCreateTemplate := sysC, userCreateTemplate := usrC,
    systemEditTemplate := sysE, userEditTemplate := usrE,
    cachedSchema := model_json_schema .chainOfThoughtCharacterSchema }

/-- Embedded `get_system_prompt_create`: render the "create" system template with
`json.dumps(self._cached_schema, indent=2)` (`dumps2` is the serializer
oracle). -/
def get_system_prompt_create (dumps2 : PyJson → String)
    (self : CharacterHelperPromptFactory) : String :=
  self.systemCreateTemplate.subst (dumps2 self.cachedSchema)

/-- Embedded `get_system_prompt_edit`. -/
def get_system_prompt_edit (dumps2 : PyJson → String)
    (self : CharacterHelperPromptFactory) : String :=
  self.systemEditTemplate.subst (dumps2 self.cachedSchema)

/-- Embedded `build_prompt_create`: the returned dict has exactly the keys `system`
and `user`; the user prompt is the rendered user template, stripped, with a
newline appended. -/
def build_prompt_create (dumps2 : PyJson → String)
    (self : CharacterHelperPromptFactory)
    (request : CharacterCreationRequest) : List (String × String) :=
  [("system", self.get_system_prompt_create dumps2),
   ("user", pyStrip (self.userCreateTemplate request) ++ "\n")]

/-- Embedded `build_prompt_edit`. -/
def build_prompt_edit (dumps2 : PyJson → String)
    (self : CharacterHelperPromptFactory)
    (request : CharacterEditRequest) : List (String × String) :=
  [("system", self.get_system_prompt_edit dumps2),
   ("user", pyStrip (self.userEditTemplate request) ++ "\n")]

end CharacterHelperPromptFactory

/-- Embedded `ScenarioHelperPromptFactory`: create/edit system and user templates
plus the cached chain-of-thought scenario schema. -/
structure ScenarioHelperPromptFactory where
  systemCreateTemplate : SysTemplate
  userCreateTemplate : ScenarioCreationRequest → String
  systemEditTemplate : SysTemplate
  userEditTemplate : ScenarioEditRequest → String
  cachedSchema : PyJson

namespace ScenarioHelperPromptFactory

/-- Embedded `__init__`: cache `ChainOfThoughtScenarioSchema.model_json_schema()`
once. -/
def init (sysC : SysTemplate) (usrC : ScenarioCreationRequest → String)
    (sysE : SysTemplate) (usrE : ScenarioEditRequest → String)
    (model_json_schema : SchemaModel → PyJson) :
    ScenarioHelperPromptFactory :=
  { systemCreateTemplate := sysC, userCreateTemplate := usrC,
    systemEditTemplate := sysE, userEditTemplate := usrE,
    cachedSchema := model_json_schema .chainOfThoughtScenarioSchema }

/-- Embedded `get_system_prompt_create`. -/
def get_system_prompt_create (dumps2 : PyJson → String)
    (self : ScenarioHelperPromptFactory) : String :=
  self.systemCreateTemplate.subst (dumps2 self.cachedSchema)

/-- Embedded `get_system_prompt_edit`. -/
def get_system_prompt_edit (dumps2 : PyJson → String)
    (self : ScenarioHelperPromptFactory) : String :=
  self.systemEditTemplate.subst (dumps2 self.cachedSchema)

/-- Embedded `build_prompt_create`. -/
def build_prompt_create (dumps2 : PyJson → String)
    (self : ScenarioHelperPromptFactory)
    (request : ScenarioCreationRequest) : List (String × String) :=
  [("system", self.get_system_prompt_create dumps2),
   ("user", pyStrip (self.userCreateTemplate request) ++ "\n")]

/-- Embedded `build_prompt_edit`. -/
def build_prompt_edit (dumps2 : PyJson → String)
    (self : ScenarioHelperPromptFactory)
    (request : ScenarioEditRequest) : List (String × String) :=
  [("system", self.get_system_prompt_edit dumps2),
   ("user", pyStrip (self.userEditTemplate request) ++ "\n")]

end ScenarioHelperPromptFactory

/-- Embedded `CharacterInSimulationPromptFactory`. -/
structure CharacterInSimulationPromptFactory where
  systemTemplate : SysTemplate
  userTemplate : CharacterInSimulationInput → String
  cachedSchema : PyJson

namespace CharacterInSimulationPromptFactory

/-- Embedded `__init__`: cache `CharacterInSimulationOutput.model_json_schema()`
once. -/
def init (sysT : SysTemplate) (usrT : CharacterInSimulationInput → String)
    (model_json_schema : SchemaModel → PyJson) :
    CharacterInSimulationPromptFactory :=
  { systemTemplate := sysT, userTemplate := usrT,
    cachedSchema := model_json_schema .characterInSimulationOutput }

/-- Embedded `get_system_prompt`. -/
def get_system_prompt (dumps2 : PyJson → String)
    (self : CharacterInSimulationPromptFactory) : String :=
  self.systemTemplate.subst (dumps2 self.cachedSchema)

/-- Embedded `build_prompt`: the source appends `"\\n"` — the two-character sequence
backslash `n`, not a newline — to the stripped user prompt
(`prompt_factory.py` line 43). -/
def build_prompt (dumps2 : PyJson → String)
    (self : CharacterInSimulationPromptFactory)
    (request : CharacterInSimulationInput) : List (String × String) :=
  [("system", self.get_system_prompt dumps2),
   ("user", pyStrip (self.userTemplate request) ++ "\\n")]

end CharacterInSimulationPromptFactory

/-- Embedded `ModeratorPromptFactory`. Its system template renders both the schema
and the request fields, so it is an abstract function of both. (The module
itself cannot be imported — see `resolveFactory` — but its method bodies
are still embedded as written.) -/
structure ModeratorPromptFactory where
  systemTemplate : String → ScenarioModeratorInput → String
  userTemplate : ScenarioModeratorInput → String
  cachedSchema : PyJson

namespace ModeratorPromptFactory

/-- Embedded `__init__`: cache `ScenarioModeratorOutput.model_json_schema()` once. -/
def init (sysT : String → ScenarioModeratorInput → String)
    (usrT : ScenarioModeratorInput → String)
    (model_json_schema : SchemaModel → PyJson) : ModeratorPromptFactory :=
  { systemTemplate := sysT, userTemplate := usrT,
    cachedSchema := model_json_schema .scenarioModeratorOutput }

/-- Embedded `get_system_prompt`. -/
def get_system_prompt (dumps2 : PyJson → String)
    (self : ModeratorPromptFactory) (request : ScenarioModeratorInput) :
    String :=
  self.systemTemplate (dumps2 self.cachedSchema) request

/-- Embedded `build_prompt`. -/
def build_prompt (dumps2 : PyJson → String) (self : ModeratorPromptFactory)
    (request : ScenarioModeratorInput) : List (String × String) :=
  [("system", self.get_system_prompt dumps2 request),
   ("user", pyStrip (self.userTemplate request) ++ "\n")]

end ModeratorPromptFactory

/-- Embedded `ScenarioFeedbackPromptFactory`. -/
structure ScenarioFeedbackPromptFactory where
  systemTemplate : FeedbackTemplate
  cachedSchema : PyJson

namespace ScenarioFeedbackPromptFactory

/-- Embedded `__init__`: cache `ScenarioFeedbackSchema.model_json_schema()` once. -/
def init (sysT : FeedbackTemplate)
    (model_json_schema : SchemaModel → PyJson) :
    ScenarioFeedbackPromptFactory :=
  { systemTemplate := sysT,
    cachedSchema := model_json_schema .scenarioFeedbackSchema }

/-- Embedded `build_prompt`: the system prompt is the rendered template (request
fields plus `schema_json`), stripped, with a newline appended; the user
prompt is the fixed string. -/
def build_prompt (dumps2 : PyJson → String)
    (self : ScenarioFeedbackPromptFactory)
    (request : ScenarioFeedbackRequest) : List (String × String) :=
  [("system",
    pyStrip (self.systemTemplate.subst request (dumps2 self.cachedSchema))
      ++ "\n"),
   ("user", "Produce ONLY the JSON now.")]

end ScenarioFeedbackPromptFactory

/-! ## The `ai_critique` stage order as claim C1 states it -/

/-- The `ai_critique` stages in the order the spec claim lists them (parse
the markdown-stripped main response and extract `final_character` FIRST,
then read the critique prompt file, then substitute, resolve the critique
client and call it, validate, threshold-check). This definition follows the
claim's words, not the source, and exists only to compare the claimed stage
order against the source's actual order (file read and client resolution
happen before the parse in `evaluate.py` lines 286-296). -/
def aiCritiqueClaimOrder (ctx : EvalCtx) (a : Assertion) :
    List String × Bool :=
  let critique_model_key := a.critique_model.getD "gemini_flash_strict"
  match ctx.jsonLoads (strip_markdown ctx.responseText) with
  | none => (["[FAIL] AI critique failed with an error: "
      ++ ctx.excMsg .jsonDecodeError], false)
  | some (.obj fields) =>
    match ctx.readFile a.prompt_path with
    | none =>
      (["[FAIL] Critique prompt file not found at '" ++ a.prompt_path
          ++ "'."], false)
    | some critique_prompt_template =>
      let character_data_json :=
        ctx.jsonDumps2 ((dictGet fields "final_character").getD (.obj []))
      let user_prompt_for_critique :=
        pyReplace critique_prompt_template characterDataPlaceholder
          character_data_json
      match get_client ctx.models ctx.env critique_model_key with
      | .error e => (["[FAIL] AI critique failed with an error: "
          ++ ctx.excMsg e], false)
      | .ok critique_client =>
        match ctx.generate critique_client user_prompt_for_critique with
        | none => (["[FAIL] AI critique failed with an error: "
            ++ ctx.excMsg .apiError], false)
        | some critique_response_text =>
          match critiqueValidate ctx.jsonLoads
              (strip_markdown critique_response_text) with
          | none => (["[FAIL] AI critique failed with an error: "
              ++ ctx.excMsg .validationError], false)
          | some critique_scores =>
            thresholdCheck critique_scores a.thresholds
  | some _ =>
    (["[FAIL] AI critique failed with an error: "
        ++ ctx.excMsg .attributeError], false)

/-! ## Concrete instances (used by witnesses and counterexamples) -/

/-- A `google`-provider model entry. -/
def googleModelInfo : ModelInfo :=
  { provider := some "google", api_key_env := some "GOOGLE_API_KEY",
    model_name := some "gemini-2.0", generation_config := none,
    base_url := none }

/-- An `anthropic`-provider entry (a provider `get_client` rejects). -/
def anthropicModelInfo : ModelInfo :=
  { provider := some "anthropic", api_key_env := some "ANTHROPIC_API_KEY",
    model_name := some "claude", generation_config := none,
    base_url := none }

/-- A small models configuration. -/
def modelsA : ModelsConfig :=
  [("m", some googleModelInfo), ("gemini_flash_strict", some googleModelInfo),
   ("a", some anthropicModelInfo)]

/-- An environment in which every variable is set. -/
def envA : String → Option String := fun _ => some "secret"

/-- The client `get_client modelsA envA` produces for a google entry. -/
def clientA : LlmClient := .google "secret" (some "gemini-2.0") (.obj [])

/-- The fields of a parsed main-model response: a `final_character` object
plus the three critique metrics and a string field. -/
def objFieldsA : List (String × PyJson) :=
  [("final_character", .obj []), ("creativity", .int 7),
   ("depth", .int 8), ("originality", .int 9),
   ("msg", .str "hello world")]

/-- The parsed main-model response as a JSON value. -/
def objA : PyJson := .obj objFieldsA

/-- An assertion-stage context whose oracles all succeed. -/
def ctxA : EvalCtx :=
  { responseText := "RESP", models := modelsA, env := envA,
    jsonLoads := fun _ => some objA, pydanticValidate := fun _ _ => true,
    readFile := fun _ => some "T", generate := fun _ _ => some "R",
    jsonDumps2 := fun _ => "D", excMsg := fun _ => "" }

/-- A context whose response is not parseable as JSON. -/
def ctxNoJson : EvalCtx := { ctxA with jsonLoads := fun _ => none }

/-- A context in which the critique prompt file is missing AND the response
is not parseable as JSON: the stage order determines which failure is
reported. -/
def ctxB : EvalCtx :=
  { ctxA with jsonLoads := fun _ => none, readFile := fun _ => none }

/-- An assertion with every key at its most neutral value. -/
def baseAssertion : Assertion :=
  { type := "", field := "", expected := [], schema := "",
    prompt_path := "", thresholds := [], critique_model := none }

/-- An `ai_critique` assertion with two thresholds (one met, one not). -/
def critiqueAssertion : Assertion :=
  { baseAssertion with
    type := "ai_critique",
    prompt_path := "p.txt",
    thresholds := [("creativity", 5), ("depth", 9)] }

/-- A `field_contains` assertion on the `msg` field. -/
def containsAssertion : Assertion :=
  { baseAssertion with
    type := "field_contains",
    field := "msg",
    expected := ["hello"] }

/-- An assertion of a type none of the four branches recognizes. -/
def unknownAssertion : Assertion := { baseAssertion with type := "mystery" }

/-- A test case that resolves cleanly. -/
def tcA : TestCase :=
  { agent := "character_helper", factory_method := "build_prompt_create",
    model := "m", assertions := [] }

/-- A run context whose oracles all succeed. -/
def runCtxA : RunCtx :=
  { modelsYaml := some modelsA, agentsYaml := some (),
    testCaseYaml := some tcA, env := envA, inputsValid := true,
    builtPrompts := ("S", "U"), mainGenerate := fun _ _ _ => some "OUT",
    jsonLoads := fun _ => some objA, pydanticValidate := fun _ _ => true,
    readFile := fun _ => some "T", critiqueGenerate := fun _ _ => some "R",
    jsonDumps2 := fun _ => "D", excMsg := fun _ => "",
    reportTimestamp := "10_12_00_00",
    headerTimestamp := "2026-10-12 00:00:00" }

/-- The same run context with the test-case file missing. -/
def runCtxMissing : RunCtx := { runCtxA with testCaseYaml := none }

/-- A trivial template pair. -/
def sysTemplateX : SysTemplate := { pre := "", post := "" }

/-- A concrete character-in-simulation factory whose user template renders
to `"hello"`. -/
def cisFactoryX : CharacterInSimulationPromptFactory :=
  { systemTemplate := sysTemplateX, userTemplate := fun _ => "hello",
    cachedSchema := .null }

/-- A neutral `CharacterInSimulationInput`. -/
def cisInputX : CharacterInSimulationInput :=
  { character_name := "", simulation_name := "", character_role := "",
    character_expertise := "", character_personality := "",
    character_behaviors := [], selected_strategy := "",
    emergency_keywords := [], scenario_description := "",
    current_scene := "", scenario_objectives := none,
    objectives_progress := none, conversation_history := [],
    command_type := "", user_input := "", character_examples := none }

/-- A constant serializer oracle. -/
def dumpsX : PyJson → String := fun _ => "SCHEMA"

/-! ## Helper lemmas -/

/-- A run of the substitution loop over a string in which the regex has no
match leaves the string unchanged (given enough fuel). -/
theorem stripMarkdownAux_noFence :
    ∀ (fuel : Nat) (s : List Char), s.length ≤ fuel → hasFence s = false →
      stripMarkdownAux fuel s = s := by
  intro fuel
  induction fuel with
  | zero => intro s _ _; rfl
  | succ f ih =>
    intro s hlen hf
    cases s with
    | nil => rfl
    | cons c rest =>
      have hlen' : rest.length ≤ f := Nat.le_of_succ_le_succ (by simpa using hlen)
      simp only [hasFence, Bool.or_eq_false_iff, Bool.and_eq_false_iff] at hf
      obtain ⟨h1, h2⟩ := hf
      rw [stripMarkdownAux]
      by_cases hp : fenceOpen.isPrefixOf (c :: rest) = true
      · have h' : (findClose (List.drop 7 rest)).isSome = false := by
          rcases h1 with h | h
          · exact absurd hp (by simp [h])
          · simpa using h
        have hnone : findClose (List.drop 7 rest) = none :=
          Option.not_isSome_iff_eq_none.mp (by simp [h'])
        simp [hp, hnone, ih rest hlen' h2]
      · simp [hp, ih rest hlen' h2]

/-- Embedded `all(v in fv for v in vals)` on a string field value never raises and
equals the Boolean conjunction of the substring tests. -/
theorem pyAllIn_str (vals : List String) (s : String) :
    pyAllIn vals (.str s) = .ok (vals.all fun v => pyIsSubstr v s) := by
  induction vals with
  | nil => rfl
  | cons v rest ih =>
    cases h : pyIsSubstr v s <;> simp [pyAllIn, pyIn, h, ih]

/-- Embedded `any(v in fv for v in vals)` on a string field value never raises and
equals the Boolean disjunction of the substring tests. -/
theorem pyAnyIn_str (vals : List String) (s : String) :
    pyAnyIn vals (.str s) = .ok (vals.any fun v => pyIsSubstr v s) := by
  induction vals with
  | nil => rfl
  | cons v rest ih =>
    cases h : pyIsSubstr v s <;> simp [pyAnyIn, pyIn, h, ih]

/-- The threshold loop passes overall iff every named metric is a field of
the validated critique and meets its threshold. -/
theorem thresholdCheck_iff (scores : CritiqueScoreSchema) :
    ∀ ths : List (String × Int), (thresholdCheck scores ths).2 = true ↔
      ∀ mt ∈ ths, ∃ s, scores.attr mt.1 = some s ∧ mt.2 ≤ s := by
  intro ths
  induction ths with
  | nil => simp [thresholdCheck]
  | cons mt rest ih =>
    obtain ⟨metric, threshold⟩ := mt
    cases h : scores.attr metric with
    | none => simp [thresholdCheck, h]
    | some s0 =>
      by_cases hge : s0 ≥ threshold
      · simp [thresholdCheck, h, hge, ih]
      · simp [thresholdCheck, h, hge]

/-- A list is a prefix of itself followed by anything. -/
theorem isPrefixOf_self_append :
    ∀ (b c : List Char), b.isPrefixOf (b ++ c) = true := by
  intro b
  induction b with
  | nil => intro c; cases c <;> rfl
  | cons h t ih => intro c; simp [List.isPrefixOf, ih]

/-- The empty needle occurs in every haystack. -/
theorem charsContain_nil_left : ∀ x : List Char, charsContain [] x = true := by
  intro x
  cases x <;> simp [charsContain, List.isPrefixOf]

/-- A needle occurs in any haystack that embeds it between two segments. -/
theorem charsContain_append :
    ∀ (a b c : List Char), charsContain b (a ++ b ++ c) = true := by
  intro a
  induction a with
  | nil =>
    intro b c
    cases b with
    | nil => simpa using charsContain_nil_left c
    | cons h t =>
      have hp := isPrefixOf_self_append (h :: t) c
      simp only [List.cons_append] at hp
      simp [charsContain, hp]
  | cons x a' ih =>
    intro b c
    have h := ih b c
    rw [List.append_assoc] at h
    rw [List.append_assoc, List.cons_append]
    simp [charsContain, h]

/-- String append acts as list append on the underlying characters. -/
theorem string_data_append (a b : String) : (a ++ b).data = a.data ++ b.data :=
  rfl

/-- A result passes when its recorded verdict is `true` (and no exception
escaped). -/
def assertionPasses (r : Except PyExc (List String × Bool)) : Prop :=
  ∃ lines, r = .ok (lines, true)

/-! ## Claim theorems -/

/-- C9 counterexample: `strip_markdown` is NOT idempotent. On the nested
input ```` ```json\n```json\nX\n```\n``` ```` one application yields
```` ```json\nX\n``` ```` (the outer match swallows the inner opening fence,
leaving a fresh fenced block), and a second application strips again, so
applying it twice differs from applying it once. -/
theorem strip_markdown_not_idempotent :
    strip_markdown (strip_markdown "```json\n```json\nX\n```\n```")
        ≠ strip_markdown "```json\n```json\nX\n```\n```"
      ∧ strip_markdown "```json\n```json\nX\n```\n```" = "```json\nX\n```"
      ∧ strip_markdown (strip_markdown "```json\n```json\nX\n```\n```")
          = "X" := by
  refine ⟨?_, ?_, ?_⟩ <;> decide

/-- C9 (amended): `strip_markdown` is the identity — hence idempotent — on
every string in which the fenced-block regex has no match; idempotence
fails in general (see the counterexample). -/
theorem strip_markdown_identity (s : String) (h : hasFence s.data = false) :
    strip_markdown s = s
      ∧ strip_markdown (strip_markdown s) = strip_markdown s := by
  have hid : strip_markdown s = s := by
    unfold strip_markdown
    rw [stripMarkdownAux_noFence s.data.length s.data le_rfl h]
  exact ⟨hid, by rw [hid, hid]⟩

/-- C9 witness: the identity at a concrete fence-free string. -/
theorem strip_markdown_identity_witness :
    hasFence "no fences here".data = false
      ∧ strip_markdown "no fences here" = "no fences here" :=
  ⟨by decide, (strip_markdown_identity "no fences here" (by decide)).1⟩

/-- C4: `get_client` raises `ValueError` for a model key absent from the
config, raises `ValueError` when the configured API-key environment
variable is unset, and otherwise returns a `GoogleClient` for provider
`google`, an `OpenAICompatibleClient` (with the optional `base_url`) for
providers `openai`, `mistral` and `cerebras`, and raises
`NotImplementedError` for every other provider value. -/
theorem get_client_dispatch (cfg : ModelsConfig) (env : String → Option String)
    (key : String) :
    (modelsLookup cfg key = none → get_client cfg env key = .error .valueError)
    ∧ (∀ mi ke, modelsLookup cfg key = some mi → mi.api_key_env = some ke →
        env ke = none → get_client cfg env key = .error .valueError)
    ∧ (∀ mi ke ak, modelsLookup cfg key = some mi → mi.api_key_env = some ke →
        env ke = some ak → ak ≠ "" →
        (mi.provider = some "google" →
          get_client cfg env key =
            .ok (.google ak mi.model_name (mi.generation_config.getD (.obj []))))
        ∧ ((mi.provider = some "openai" ∨ mi.provider = some "mistral"
              ∨ mi.provider = some "cerebras") →
          get_client cfg env key =
            .ok (.openaiCompatible ak mi.model_name
              (mi.generation_config.getD (.obj [])) mi.base_url))
        ∧ (mi.provider ≠ some "google" →
            ¬(mi.provider = some "openai" ∨ mi.provider = some "mistral"
              ∨ mi.provider = some "cerebras") →
          get_client cfg env key = .error .notImplementedError)) := by
  refine ⟨?_, ?_, ?_⟩
  · intro h; simp [get_client, h]
  · intro mi ke h1 h2 h3; simp [get_client, h1, h2, h3]
  · intro mi ke ak h1 h2 h3 h4
    refine ⟨?_, ?_, ?_⟩
    · intro hg; simp [get_client, h1, h2, h3, h4, hg]
    · intro ho; rcases ho with ho | ho | ho <;>
        simp [get_client, h1, h2, h3, h4, ho]
    · intro hng hno
      simp [get_client, h1, h2, h3, h4, hng, hno]

/-- C4 witness: a google entry resolves to a `GoogleClient`, an absent key
raises `ValueError`, and an `anthropic` entry raises
`NotImplementedError`. -/
theorem get_client_dispatch_witness :
    get_client modelsA envA "m" = .ok clientA
      ∧ get_client modelsA envA "nope" = .error .valueError
      ∧ get_client modelsA envA "a" = .error .notImplementedError := by
  refine ⟨?_, ?_, ?_⟩
  · exact ((get_client_dispatch modelsA envA "m").2.2 googleModelInfo
      "GOOGLE_API_KEY" "secret" rfl rfl rfl (by decide)).1 rfl
  · exact (get_client_dispatch modelsA envA "nope").1 rfl
  · exact ((get_client_dispatch modelsA envA "a").2.2 anthropicModelInfo
      "ANTHROPIC_API_KEY" "secret" rfl rfl rfl (by decide)).2.2
      (by decide) (by decide)

/-- C2: a `field_contains` assertion passes iff every string in `expected`
is a substring of the named field's value (an absent field reading as the
empty string); `field_not_contains` passes iff none is; with an empty
`expected` list both kinds pass on any JSON-object response; and both kinds
fail when the response is not parseable as JSON. -/
theorem field_contains_semantics (ctx : EvalCtx) (a : Assertion) :
    (∀ fields s,
      ctx.jsonLoads (strip_markdown ctx.responseText) = some (.obj fields) →
      (dictGet fields a.field).getD (.str "") = .str s →
      (assertionPasses (fieldContainsAssertion ctx a) ↔
        ∀ v ∈ a.expected, pyIsSubstr v s = true)
      ∧ (assertionPasses (fieldNotContainsAssertion ctx a) ↔
        ∀ v ∈ a.expected, pyIsSubstr v s = false))
    ∧ (∀ fields,
      ctx.jsonLoads (strip_markdown ctx.responseText) = some (.obj fields) →
      a.expected = [] →
      assertionPasses (fieldContainsAssertion ctx a)
      ∧ assertionPasses (fieldNotContainsAssertion ctx a))
    ∧ (ctx.jsonLoads (strip_markdown ctx.responseText) = none →
      fieldContainsAssertion ctx a =
        .ok (["[FAIL] Could not parse LLM response as JSON."], false)
      ∧ fieldNotContainsAssertion ctx a =
        .ok (["[FAIL] Could not parse LLM response as JSON."], false)) := by
  refine ⟨?_, ?_, ?_⟩
  · intro fields s hl hv
    constructor
    · rw [show (∀ v ∈ a.expected, pyIsSubstr v s = true) ↔
          (a.expected.all fun v => pyIsSubstr v s) = true from
        (List.all_eq_true).symm]
      cases hall : a.expected.all fun v => pyIsSubstr v s <;>
        simp [fieldContainsAssertion, hl, hv, pyAllIn_str, hall,
          assertionPasses]
    · rw [show (∀ v ∈ a.expected, pyIsSubstr v s = false) ↔
          (a.expected.any fun v => pyIsSubstr v s) = false from by
        simp [List.any_eq_false]]
      cases hany : a.expected.any fun v => pyIsSubstr v s <;>
        simp [fieldNotContainsAssertion, hl, hv, pyAnyIn_str, hany,
          assertionPasses]
  · intro fields hl he
    constructor <;>
      simp [fieldContainsAssertion, fieldNotContainsAssertion, hl, he,
        pyAllIn, pyAnyIn, assertionPasses]
  · intro hl
    exact ⟨by simp [fieldContainsAssertion, hl],
      by simp [fieldNotContainsAssertion, hl]⟩

/-- C2 witness: a passing `field_contains` on a concrete parsed response,
and the failure result on an unparseable response. -/
theorem field_contains_semantics_witness :
    assertionPasses (fieldContainsAssertion ctxA containsAssertion)
      ∧ fieldContainsAssertion ctxNoJson containsAssertion =
        .ok (["[FAIL] Could not parse LLM response as JSON."], false) := by
  constructor
  · exact ((field_contains_semantics ctxA containsAssertion).1 objFieldsA
      "hello world" rfl rfl).1.mpr (by decide)
  · exact ((field_contains_semantics ctxNoJson containsAssertion).2.2 rfl).1

/-- C3 counterexample: factory resolution does NOT succeed for all five
agents. The moderator module imports `ScenarioModeratorInput` and
`ScenarioModeratorOutput` from `prompts.schemas`, which defines neither, so
the load of `prompts.agents.moderator.prompt_factory` raises `ImportError`
for either factory method; and `character_in_simulation` defines no
`build_prompt_create`, so reading that method's annotation raises
`AttributeError`. -/
theorem factory_resolution_counterexample :
    resolveFactory "moderator" "build_prompt_create" = .error .importError
    ∧ resolveFactory "moderator" "build_prompt_edit" = .error .importError
    ∧ schemasModuleNames.contains "ScenarioModeratorInput" = false
    ∧ schemasModuleNames.contains "ScenarioModeratorOutput" = false
    ∧ resolveFactory "character_in_simulation" "build_prompt_create"
        = .error .attributeError :=
  ⟨rfl, rfl, by decide, by decide, rfl⟩

/-- C3 (amended): the CamelCased class name is correct for all five agents,
but the runner's factory resolution succeeds only for `character_helper`
and `scenario_helper` (with the annotated request classes shown); the
moderator module cannot be imported at all (its `prompts.schemas` imports
name missing classes), and `character_in_simulation` and
`scenario_feedback` define only `build_prompt`, which the runner's
`build_prompt_create`/`build_prompt_edit` dispatch rejects
(`AttributeError` when asked for the missing methods, `ValueError` for
`build_prompt` itself). -/
theorem factory_resolution_amended :
    resolveFactory "character_helper" "build_prompt_create"
        = .ok "CharacterCreationRequest"
    ∧ resolveFactory "character_helper" "build_prompt_edit"
        = .ok "CharacterEditRequest"
    ∧ resolveFactory "scenario_helper" "build_prompt_create"
        = .ok "ScenarioCreationRequest"
    ∧ resolveFactory "scenario_helper" "build_prompt_edit"
        = .ok "ScenarioEditRequest"
    ∧ camelFactoryName "character_helper" = "CharacterHelperPromptFactory"
    ∧ camelFactoryName "character_in_simulation"
        = "CharacterInSimulationPromptFactory"
    ∧ camelFactoryName "moderator" = "ModeratorPromptFactory"
    ∧ camelFactoryName "scenario_feedback" = "ScenarioFeedbackPromptFactory"
    ∧ camelFactoryName "scenario_helper" = "ScenarioHelperPromptFactory"
    ∧ (∀ factory_method,
        resolveFactory "moderator" factory_method = .error .importError)
    ∧ resolveFactory "character_in_simulation" "build_prompt_create"
        = .error .attributeError
    ∧ resolveFactory "character_in_simulation" "build_prompt_edit"
        = .error .attributeError
    ∧ resolveFactory "scenario_feedback" "build_prompt_create"
        = .error .attributeError
    ∧ resolveFactory "scenario_feedback" "build_prompt_edit"
        = .error .attributeError
    ∧ resolveFactory "character_in_simulation" "build_prompt"
        = .error .valueError
    ∧ resolveFactory "scenario_feedback" "build_prompt"
        = .error .valueError :=
  ⟨rfl, rfl, rfl, rfl, rfl, rfl, rfl, rfl, rfl, fun _ => rfl, rfl, rfl, rfl,
   rfl, rfl, rfl⟩

/-- C6: within one run the branch an assertion takes is determined solely
by its `type` field, over exactly the four recognized kinds (any other
type is a no-op), and the loop evaluates assertions sequentially in list
order, appending each one's `[PASS]`/`[FAIL]` lines to the shared results
list and and-ing its verdict into the shared flag. -/
theorem assertion_dispatch_sequential (ctx : EvalCtx) (a : Assertion)
    (rest : List Assertion) (lines : List String) (flag : Bool) :
    (a.type = "is_valid_pydantic_schema" →
      evalAssertion ctx a = .ok (schemaAssertion ctx a))
    ∧ (a.type = "field_contains" →
      evalAssertion ctx a = fieldContainsAssertion ctx a)
    ∧ (a.type = "field_not_contains" →
      evalAssertion ctx a = fieldNotContainsAssertion ctx a)
    ∧ (a.type = "ai_critique" →
      evalAssertion ctx a = .ok (aiCritique ctx a))
    ∧ (a.type ∉ assertionKinds → evalAssertion ctx a = .ok ([], true))
    ∧ runAssertions ctx [] (lines, flag) = .ok (lines, flag)
    ∧ runAssertions ctx (a :: rest) (lines, flag) =
        (match evalAssertion ctx a with
         | .error e => .error e
         | .ok (newLines, passed) =>
            runAssertions ctx rest (lines ++ newLines, flag && passed)) := by
  refine ⟨?_, ?_, ?_, ?_, ?_, rfl, rfl⟩
  · intro h; simp [evalAssertion, h]
  · intro h; simp [evalAssertion, h]
  · intro h; simp [evalAssertion, h]
  · intro h; simp [evalAssertion, h]
  · intro h
    simp only [assertionKinds, List.mem_cons, List.not_mem_nil, or_false,
      not_or] at h
    obtain ⟨h1, h2, h3, h4⟩ := h
    simp [evalAssertion, h1, h2, h3, h4]

/-- C6 witness: the dispatch at concrete assertions. -/
theorem assertion_dispatch_sequential_witness :
    evalAssertion ctxA unknownAssertion = .ok ([], true)
      ∧ evalAssertion ctxA containsAssertion
        = fieldContainsAssertion ctxA containsAssertion :=
  ⟨(assertion_dispatch_sequential ctxA unknownAssertion [] [] true).2.2.2.2.1
      (by decide),
   (assertion_dispatch_sequential ctxA containsAssertion [] [] true).2.1 rfl⟩

/-- C10: assertions of unrecognized type are silently skipped — they append
no result and leave the pass flag unchanged — so a test case whose
assertions all have unrecognized types (or none at all) keeps
`all_assertions_passed = true`, prints `All assertions passed!`, and a
generated report's assertions section is empty. -/
theorem unrecognized_assertions_skipped (ctx : EvalCtx)
    (asserts : List Assertion)
    (h : ∀ a ∈ asserts, a.type ∉ assertionKinds) :
    (∀ lines flag, runAssertions ctx asserts (lines, flag) = .ok (lines, flag))
    ∧ summaryLine true = "All assertions passed!"
    ∧ (∀ n m o ts, generate_report n m o [] ts =
        "# Evaluation Report for " ++ n ++ "\n\n" ++ "**Timestamp**: " ++ ts
          ++ "\n" ++ "**Model ID**: " ++ m ++ "\n\n" ++ "## LLM Output\n"
          ++ "```json\n" ++ o ++ "\n```\n\n" ++ "## Assertions\n") := by
  refine ⟨?_, rfl, ?_⟩
  · have hh : ∀ (l : List Assertion), (∀ a ∈ l, a.type ∉ assertionKinds) →
        ∀ lines flag, runAssertions ctx l (lines, flag) = .ok (lines, flag) := by
      intro l
      induction l with
      | nil => intro _ lines flag; rfl
      | cons a rest ih =>
        intro hl lines flag
        have ha := hl a (by simp)
        simp only [assertionKinds, List.mem_cons, List.not_mem_nil, or_false,
          not_or] at ha
        obtain ⟨h1, h2, h3, h4⟩ := ha
        have he : evalAssertion ctx a = .ok ([], true) := by
          simp [evalAssertion, h1, h2, h3, h4]
        simp [runAssertions, he,
          ih (fun b hb => hl b (by simp [hb])) lines flag]
    exact hh asserts h
  · intro n m o ts
    simp [generate_report, String.join]

/-- C10 witness: a single unrecognized assertion leaves results and flag
untouched. -/
theorem unrecognized_assertions_skipped_witness :
    runAssertions ctxA [unknownAssertion] ([], true) = .ok ([], true) :=
  (unrecognized_assertions_skipped ctxA [unknownAssertion] (by decide)).1 [] true

/-- C1 counterexample: the claimed stage order (parse the main response
before reading the critique prompt file) is not the source's order. In a
context where the prompt file is missing AND the main response is
unparseable, the code reports the missing file — it never reaches the parse
— while the claimed order would report a critique error from the failed
parse; the recorded result lines (hence any report) differ. -/
theorem ai_critique_order_counterexample :
    aiCritique ctxB critiqueAssertion
        = (["[FAIL] Critique prompt file not found at 'p.txt'."], false)
    ∧ aiCritiqueClaimOrder ctxB critiqueAssertion
        = (["[FAIL] AI critique failed with an error: "], false)
    ∧ aiCritique ctxB critiqueAssertion
        ≠ aiCritiqueClaimOrder ctxB critiqueAssertion :=
  ⟨rfl, rfl, by decide⟩

/-- C1 (amended): for an `ai_critique` assertion the engine reads the
critique prompt file at `prompt_path`, resolves the critique client for the
`critique_model` key (defaulting to `gemini_flash_strict`), parses the
markdown-stripped main response as JSON and extracts `final_character`,
substitutes its serialization for the `\x7b\x7b character_data \x7d\x7d`
placeholder, calls the critique model, validates the markdown-stripped
reply against `CritiqueScoreSchema`, and passes overall iff every metric in
`thresholds` is a field of the validated critique with score `>=` its
threshold; any exception at any stage marks the assertion failed without
aborting the run (the branch returns normally into the loop). -/
theorem ai_critique_stages (ctx : EvalCtx) (a : Assertion) :
    (∀ tpl client fields reply scores,
      ctx.readFile a.prompt_path = some tpl →
      get_client ctx.models ctx.env
        (a.critique_model.getD "gemini_flash_strict") = .ok client →
      ctx.jsonLoads (strip_markdown ctx.responseText) = some (.obj fields) →
      ctx.generate client
        (pyReplace tpl characterDataPlaceholder
          (ctx.jsonDumps2 ((dictGet fields "final_character").getD (.obj []))))
        = some reply →
      critiqueValidate ctx.jsonLoads (strip_markdown reply) = some scores →
      aiCritique ctx a = thresholdCheck scores a.thresholds
      ∧ ((thresholdCheck scores a.thresholds).2 = true ↔
          ∀ mt ∈ a.thresholds, ∃ s, scores.attr mt.1 = some s ∧ mt.2 ≤ s))
    ∧ (ctx.readFile a.prompt_path = none →
      aiCritique ctx a =
        (["[FAIL] Critique prompt file not found at '" ++ a.prompt_path
            ++ "'."], false))
    ∧ (∀ tpl e, ctx.readFile a.prompt_path = some tpl →
      get_client ctx.models ctx.env
        (a.critique_model.getD "gemini_flash_strict") = .error e →
      aiCritique ctx a =
        (["[FAIL] AI critique failed with an error: " ++ ctx.excMsg e],
          false))
    ∧ (∀ tpl client, ctx.readFile a.prompt_path = some tpl →
      get_client ctx.models ctx.env
        (a.critique_model.getD "gemini_flash_strict") = .ok client →
      ctx.jsonLoads (strip_markdown ctx.responseText) = none →
      aiCritique ctx a =
        (["[FAIL] AI critique failed with an error: "
            ++ ctx.excMsg .jsonDecodeError], false))
    ∧ (∀ tpl client fields, ctx.readFile a.prompt_path = some tpl →
      get_client ctx.models ctx.env
        (a.critique_model.getD "gemini_flash_strict") = .ok client →
      ctx.jsonLoads (strip_markdown ctx.responseText) = some (.obj fields) →
      ctx.generate client
        (pyReplace tpl characterDataPlaceholder
          (ctx.jsonDumps2 ((dictGet fields "final_character").getD (.obj []))))
        = none →
      aiCritique ctx a =
        (["[FAIL] AI critique failed with an error: " ++ ctx.excMsg .apiError],
          false))
    ∧ (∀ tpl client fields reply, ctx.readFile a.prompt_path = some tpl →
      get_client ctx.models ctx.env
        (a.critique_model.getD "gemini_flash_strict") = .ok client →
      ctx.jsonLoads (strip_markdown ctx.responseText) = some (.obj fields) →
      ctx.generate client
        (pyReplace tpl characterDataPlaceholder
          (ctx.jsonDumps2 ((dictGet fields "final_character").getD (.obj []))))
        = some reply →
      critiqueValidate ctx.jsonLoads (strip_markdown reply) = none →
      aiCritique ctx a =
        (["[FAIL] AI critique failed with an error: "
            ++ ctx.excMsg .validationError], false))
    ∧ (a.type = "ai_critique" →
      evalAssertion ctx a = .ok (aiCritique ctx a)) := by
  refine ⟨?_, ?_, ?_, ?_, ?_, ?_, ?_⟩
  · intro tpl client fields reply scores h1 h2 h3 h4 h5
    exact ⟨by simp [aiCritique, h1, h2, h3, h4, h5],
      thresholdCheck_iff scores a.thresholds⟩
  · intro h1; simp [aiCritique, h1]
  · intro tpl e h1 h2; simp [aiCritique, h1, h2]
  · intro tpl client h1 h2 h3; simp [aiCritique, h1, h2, h3]
  · intro tpl client fields h1 h2 h3 h4; simp [aiCritique, h1, h2, h3, h4]
  · intro tpl client fields reply h1 h2 h3 h4 h5
    simp [aiCritique, h1, h2, h3, h4, h5]
  · intro h; simp [evalAssertion, h]

/-- C1 witness: the full pipeline at concrete oracles, with a met and an
unmet threshold. -/
theorem ai_critique_stages_witness :
    aiCritique ctxA critiqueAssertion =
      (["[PASS] Metric 'creativity': 7 >= 5",
        "[FAIL] Metric 'depth': 8 < 9"], false) := by
  have h := ((ai_critique_stages ctxA critiqueAssertion).1 "T" clientA
    objFieldsA "R" ⟨7, 8, 9⟩ rfl rfl rfl rfl rfl).1
  rw [h]; rfl

/-- The injected schema string occurs in a rendered system template. -/
theorem pyIsSubstr_subst (t : SysTemplate) (mid : String) :
    pyIsSubstr mid (t.subst mid) = true := by
  unfold pyIsSubstr SysTemplate.subst
  rw [string_data_append, string_data_append]
  exact charsContain_append _ _ _

/-- The injected schema string occurs in a rendered feedback template. -/
theorem pyIsSubstr_fsubst (t : FeedbackTemplate)
    (r : ScenarioFeedbackRequest) (mid : String) :
    pyIsSubstr mid (t.subst r mid) = true := by
  unfold pyIsSubstr FeedbackTemplate.subst
  rw [string_data_append, string_data_append]
  exact charsContain_append _ _ _

/-- C7: every factory caches its designated output model's JSON schema at
construction — `ChainOfThoughtCharacterSchema` for `character_helper`
(shared by create and edit), `ChainOfThoughtScenarioSchema` for
`scenario_helper` (shared by create and edit), `CharacterInSimulationOutput`
for `character_in_simulation`, `ScenarioFeedbackSchema` for
`scenario_feedback` — and every render serializes that cached value with
`json.dumps(..., indent=2)` and injects it into the rendered system prompt
(the serialized schema occurs in the rendered text). -/
theorem system_prompt_schema_injection
    (p : SchemaModel → PyJson) (dumps2 : PyJson → String)
    (sysC sysE : SysTemplate) (usrC : CharacterCreationRequest → String)
    (usrE : CharacterEditRequest → String)
    (ssysC ssysE : SysTemplate) (susrC : ScenarioCreationRequest → String)
    (susrE : ScenarioEditRequest → String)
    (csys : SysTemplate) (cusr : CharacterInSimulationInput → String)
    (ft : FeedbackTemplate) (r : ScenarioFeedbackRequest) :
    ((CharacterHelperPromptFactory.init sysC usrC sysE usrE p).cachedSchema
      = p .chainOfThoughtCharacterSchema)
    ∧ ((CharacterHelperPromptFactory.init sysC usrC sysE usrE
        p).get_system_prompt_create dumps2
      = sysC.subst (dumps2 (p .chainOfThoughtCharacterSchema)))
    ∧ ((CharacterHelperPromptFactory.init sysC usrC sysE usrE
        p).get_system_prompt_edit dumps2
      = sysE.subst (dumps2 (p .chainOfThoughtCharacterSchema)))
    ∧ pyIsSubstr (dumps2 (p .chainOfThoughtCharacterSchema))
        ((CharacterHelperPromptFactory.init sysC usrC sysE usrE
          p).get_system_prompt_create dumps2) = true
    ∧ pyIsSubstr (dumps2 (p .chainOfThoughtCharacterSchema))
        ((CharacterHelperPromptFactory.init sysC usrC sysE usrE
          p).get_system_prompt_edit dumps2) = true
    ∧ ((ScenarioHelperPromptFactory.init ssysC susrC ssysE susrE
        p).cachedSchema = p .chainOfThoughtScenarioSchema)
    ∧ ((ScenarioHelperPromptFactory.init ssysC susrC ssysE susrE
        p).get_system_prompt_create dumps2
      = ssysC.subst (dumps2 (p .chainOfThoughtScenarioSchema)))
    ∧ ((ScenarioHelperPromptFactory.init ssysC susrC ssysE susrE
        p).get_system_prompt_edit dumps2
      = ssysE.subst (dumps2 (p .chainOfThoughtScenarioSchema)))
    ∧ pyIsSubstr (dumps2 (p .chainOfThoughtScenarioSchema))
        ((ScenarioHelperPromptFactory.init ssysC susrC ssysE susrE
          p).get_system_prompt_create dumps2) = true
    ∧ pyIsSubstr (dumps2 (p .chainOfThoughtScenarioSchema))
        ((ScenarioHelperPromptFactory.init ssysC susrC ssysE susrE
          p).get_system_prompt_edit dumps2) = true
    ∧ ((CharacterInSimulationPromptFactory.init csys cusr p).cachedSchema
      = p .characterInSimulationOutput)
    ∧ ((CharacterInSimulationPromptFactory.init csys cusr
        p).get_system_prompt dumps2
      = csys.subst (dumps2 (p .characterInSimulationOutput)))
    ∧ pyIsSubstr (dumps2 (p .characterInSimulationOutput))
        ((CharacterInSimulationPromptFactory.init csys cusr
          p).get_system_prompt dumps2) = true
    ∧ ((ScenarioFeedbackPromptFactory.init ft p).cachedSchema
      = p .scenarioFeedbackSchema)
    ∧ ((ScenarioFeedbackPromptFactory.init ft p).build_prompt dumps2 r
      = [("system",
          pyStrip (ft.subst r (dumps2 (p .scenarioFeedbackSchema))) ++ "\n"),
         ("user", "Produce ONLY the JSON now.")])
    ∧ pyIsSubstr (dumps2 (p .scenarioFeedbackSchema))
        (ft.subst r (dumps2 (p .scenarioFeedbackSchema))) = true := by
  refine ⟨rfl, rfl, rfl, ?_, ?_, rfl, rfl, rfl, ?_, ?_, rfl, rfl, ?_, rfl,
    rfl, ?_⟩
  · exact pyIsSubstr_subst sysC _
  · exact pyIsSubstr_subst sysE _
  · exact pyIsSubstr_subst ssysC _
  · exact pyIsSubstr_subst ssysE _
  · exact pyIsSubstr_subst csys _
  · exact pyIsSubstr_fsubst ft r _

/-- C8 counterexample: `character_in_simulation`'s `build_prompt` appends
the literal two-character sequence backslash `n` (`"\\n"` in the source),
not a newline, to the stripped user prompt — so the claim's "single newline
character appended" fails for that factory. -/
theorem build_prompt_newline_counterexample :
    CharacterInSimulationPromptFactory.build_prompt dumpsX cisFactoryX
        cisInputX
      = [("system", "SCHEMA"), ("user", "hello\\n")]
    ∧ ("hello\\n" : String) ≠ pyStrip "hello" ++ "\n" :=
  ⟨rfl, by decide⟩

/-- C8 (amended): every listed build method returns a dict with exactly the
keys `system` and `user`; for `character_helper` create/edit,
`scenario_helper` create/edit and `moderator`, the `user` entry is the
rendered user template stripped with a single newline appended, while for
`character_in_simulation` it is the stripped render with the two-character
sequence backslash `n` appended. -/
theorem build_prompt_shape_amended (dumps2 : PyJson → String)
    (chf : CharacterHelperPromptFactory) (shf : ScenarioHelperPromptFactory)
    (cis : CharacterInSimulationPromptFactory) (mpf : ModeratorPromptFactory)
    (r1 : CharacterCreationRequest) (r2 : CharacterEditRequest)
    (r3 : ScenarioCreationRequest) (r4 : ScenarioEditRequest)
    (r5 : CharacterInSimulationInput) (r6 : ScenarioModeratorInput) :
    chf.build_prompt_create dumps2 r1 =
      [("system", chf.get_system_prompt_create dumps2),
       ("user", pyStrip (chf.userCreateTemplate r1) ++ "\n")]
    ∧ chf.build_prompt_edit dumps2 r2 =
      [("system", chf.get_system_prompt_edit dumps2),
       ("user", pyStrip (chf.userEditTemplate r2) ++ "\n")]
    ∧ shf.build_prompt_create dumps2 r3 =
      [("system", shf.get_system_prompt_create dumps2),
       ("user", pyStrip (shf.userCreateTemplate r3) ++ "\n")]
    ∧ shf.build_prompt_edit dumps2 r4 =
      [("system", shf.get_system_prompt_edit dumps2),
       ("user", pyStrip (shf.userEditTemplate r4) ++ "\n")]
    ∧ mpf.build_prompt dumps2 r6 =
      [("system", mpf.get_system_prompt dumps2 r6),
       ("user", pyStrip (mpf.userTemplate r6) ++ "\n")]
    ∧ cis.build_prompt dumps2 r5 =
      [("system", cis.get_system_prompt dumps2),
       ("user", pyStrip (cis.userTemplate r5) ++ "\\n")]
    ∧ (chf.build_prompt_create dumps2 r1).map Prod.fst = ["system", "user"]
    ∧ (cis.build_prompt dumps2 r5).map Prod.fst = ["system", "user"] :=
  ⟨rfl, rfl, rfl, rfl, rfl, rfl, rfl, rfl⟩

/-- C5: `run_evaluation` is a linear sequence with no retries — load the
three YAML files, resolve the model key and the factory, build the request
and prompts, get the client and call the provider exactly once, run the
assertions, and only with the report flag set write
`reports/<test_case_name>_<timestamp>.md` containing the test case name,
the model key, the raw LLM output fenced in ```` ```json ```` and one
bullet per assertion result in order; every failure before the assertions
terminates with status 1 with the later stages absent from the trace. -/
theorem run_evaluation_linear (ctx : RunCtx) (path : String) (rep : Bool) :
    ((ctx.modelsYaml = none ∨ ctx.agentsYaml = none
        ∨ ctx.testCaseYaml = none) →
      run_evaluation ctx path rep = { trace := [], exitCode := some 1 })
    ∧ (∀ mc u tc, ctx.modelsYaml = some mc → ctx.agentsYaml = some u →
        ctx.testCaseYaml = some tc →
      (modelsLookup mc tc.model = none →
        run_evaluation ctx path rep =
          { trace := [.loadedConfigs], exitCode := some 1 })
      ∧ (∀ mi e, modelsLookup mc tc.model = some mi →
          resolveFactory tc.agent tc.factory_method = .error e →
        run_evaluation ctx path rep =
          { trace := [.loadedConfigs, .resolvedModel], exitCode := some 1 })
      ∧ (∀ mi annotated, modelsLookup mc tc.model = some mi →
          resolveFactory tc.agent tc.factory_method = .ok annotated →
          ctx.inputsValid = false →
        run_evaluation ctx path rep =
          { trace := [.loadedConfigs, .resolvedModel], exitCode := some 1 })
      ∧ (∀ mi annotated e, modelsLookup mc tc.model = some mi →
          resolveFactory tc.agent tc.factory_method = .ok annotated →
          ctx.inputsValid = true →
          get_client mc ctx.env tc.model = .error e →
        run_evaluation ctx path rep =
          { trace := [.loadedConfigs, .resolvedModel, .builtPrompt],
            exitCode := some 1 })
      ∧ (∀ mi annotated client, modelsLookup mc tc.model = some mi →
          resolveFactory tc.agent tc.factory_method = .ok annotated →
          ctx.inputsValid = true →
          get_client mc ctx.env tc.model = .ok client →
          ctx.mainGenerate client ctx.builtPrompts.1 ctx.builtPrompts.2
            = none →
        run_evaluation ctx path rep =
          { trace := [.loadedConfigs, .resolvedModel, .builtPrompt],
            exitCode := some 1 })
      ∧ (∀ mi annotated client response results passed,
          modelsLookup mc tc.model = some mi →
          resolveFactory tc.agent tc.factory_method = .ok annotated →
          ctx.inputsValid = true →
          get_client mc ctx.env tc.model = .ok client →
          ctx.mainGenerate client ctx.builtPrompts.1 ctx.builtPrompts.2
            = some response →
          runAssertions (evalCtxOf ctx mc response) tc.assertions ([], true)
            = .ok (results, passed) →
        run_evaluation ctx path false =
          { trace := [.loadedConfigs, .resolvedModel, .builtPrompt,
              .calledProvider, .ranAssertions], exitCode := none }
        ∧ run_evaluation ctx path true =
          { trace := [.loadedConfigs, .resolvedModel, .builtPrompt,
              .calledProvider, .ranAssertions,
              .wroteReport
                ("reports/" ++ pySplitextStem (pyBasename path) ++ "_"
                  ++ ctx.reportTimestamp ++ ".md")
                ("# Evaluation Report for " ++ pySplitextStem (pyBasename path)
                  ++ "\n\n" ++ "**Timestamp**: " ++ ctx.headerTimestamp
                  ++ "\n" ++ "**Model ID**: " ++ tc.model ++ "\n\n"
                  ++ "## LLM Output\n" ++ "```json\n" ++ response
                  ++ "\n```\n\n" ++ "## Assertions\n"
                  ++ String.join (results.map fun r => "- " ++ r ++ "\n"))],
            exitCode := none })) := by
  constructor
  · intro h
    rcases h with h | h | h <;> cases hm : ctx.modelsYaml <;>
      cases ha : ctx.agentsYaml <;> cases htc : ctx.testCaseYaml <;>
      simp_all [run_evaluation]
  · intro mc u tc hm ha htc
    refine ⟨?_, ?_, ?_, ?_, ?_, ?_⟩
    · intro h; simp [run_evaluation, hm, ha, htc, h]
    · intro mi e h1 h; simp [run_evaluation, hm, ha, htc, h1, h]
    · intro mi annotated h1 h hin
      simp [run_evaluation, hm, ha, htc, h1, h, hin]
    · intro mi annotated e h1 h2 hin h3
      simp [run_evaluation, hm, ha, htc, h1, h2, hin, h3]
    · intro mi annotated client h1 h2 hin h3 h4
      simp [run_evaluation, hm, ha, htc, h1, h2, hin, h3, h4]
    · intro mi annotated client response results passed h1 h2 hin h3 h4 h5
      constructor <;>
        simp [run_evaluation, hm, ha, htc, h1, h2, hin, h3, h4, h5,
          generate_report]

/-- C5 witness: a complete successful run with report, and a run aborted by
a missing test-case file. -/
theorem run_evaluation_linear_witness :
    run_evaluation runCtxA "evaluations/test_cases/tc1.yaml" true =
      { trace := [.loadedConfigs, .resolvedModel, .builtPrompt,
          .calledProvider, .ranAssertions,
          .wroteReport "reports/tc1_10_12_00_00.md"
            ("# Evaluation Report for tc1\n\n**Timestamp**: " ++
              "2026-10-12 00:00:00\n**Model ID**: m\n\n## LLM Output\n" ++
              "```json\nOUT\n```\n\n## Assertions\n")],
        exitCode := none }
    ∧ run_evaluation runCtxMissing "evaluations/test_cases/tc1.yaml" true =
      { trace := [], exitCode := some 1 } := by
  constructor
  · have h := (((run_evaluation_linear runCtxA
      "evaluations/test_cases/tc1.yaml" true).2 modelsA () tcA rfl rfl
      rfl).2.2.2.2.2 googleModelInfo "CharacterCreationRequest" clientA "OUT"
      [] true rfl rfl rfl rfl rfl rfl).2
    exact h.trans (by decide)
  · exact (run_evaluation_linear runCtxMissing
      "evaluations/test_cases/tc1.yaml" true).1 (Or.inr (Or.inr rfl))

end PlayScenario
